import Mathlib

/-!
Formal model of the grid-metadata subsystem of `oceanspy/_ospy_utils.py`.

The development shallowly embeds the functions of the source file that the
verified properties are about:

* `_dims_from_grid_loc` (lines 376-393): the 4-digit placement-code decoder;
* `_create_grid` (lines 15-65): comodo axis annotation plus grid building;
* `_label_coord_grid_locs` (lines 396-453): the registry tagging step;
* `_add_pop_dims_to_dataset` (lines 359-373) and `_relabel_pop_dims`
  (lines 456-472): the POP dimension-relabeling pipeline.

Python-level failures (IndexError, ValueError, KeyError, TypeError,
NameError) are made explicit with `Except`; in-place mutation of the
caller's dataset is made explicit by returning the post-call state of the
dataset together with the other results.  Numeric shift values are
modelled as rationals; Python "str(x)" of a number is kept symbolic via a
dedicated constructor of the attribute-value type.
-/

namespace OspyUtils

/-- The Python exception kinds the modelled code can raise. -/
inductive PyErr where
  | indexError
  | valueError
  | keyError
  | typeError
  | nameError
deriving DecidableEq

instance {ε α : Type} [DecidableEq ε] [DecidableEq α] : DecidableEq (Except ε α) := fun a b =>
  match a, b with
  | .error e, .error f =>
      if h : e = f then isTrue (by rw [h]) else isFalse (fun hc => by cases hc; exact h rfl)
  | .error _, .ok _ => isFalse (fun hc => by cases hc)
  | .ok _, .error _ => isFalse (fun hc => by cases hc)
  | .ok x, .ok y =>
      if h : x = y then isTrue (by rw [h]) else isFalse (fun hc => by cases hc; exact h rfl)

/-- Python sequence indexing "cs[i]": IndexError when out of range. -/
def pyIndex (cs : List Char) (i : Nat) : Except PyErr Char :=
  match cs.get? i with
  | some c => .ok c
  | none => .error .indexError

/-- Python "int(c)" on a one-character string: its digit value, ValueError
on a non-digit (ASCII digits; the placement codes are ASCII). -/
def pyIntChar (c : Char) : Except PyErr Nat :=
  if c.isDigit then .ok (c.toNat - 48) else .error .valueError

/-- The horizontal lookup "\x7b1: 'XT', 2: 'XU'\x7d[k]" of lines 383-384
(one shared table for the X and the Y digit); KeyError off the table. -/
def xyLocTable (k : Nat) : Except PyErr String :=
  match k with
  | 1 => .ok "XT"
  | 2 => .ok "XU"
  | _ => .error .keyError

/-- The vertical lookup "\x7b0: 'surface', 1: 'z_t', 2: 'z_w'\x7d[k]" of
line 385; KeyError off the table. -/
def zLocTable (k : Nat) : Except PyErr String :=
  match k with
  | 0 => .ok "surface"
  | 1 => .ok "z_t"
  | 2 => .ok "z_w"
  | _ => .error .keyError

/-- Model of `_dims_from_grid_loc` (lines 376-393).  The argument is the
Python "str(grid_loc)" form of the code.  The reads happen in source
order (index then int, positions 0..3, then the three table lookups); a
dimensionality other than 3 or 2 falls off the if/elif chain, which in
Python returns None, modelled as `.ok none`. -/
def dims_from_grid_loc (grid_loc : String) : Except PyErr (Option (List String)) := do
  let cs := grid_loc.data
  let ndim ← pyIntChar (← pyIndex cs 0)
  let x_loc_key ← pyIntChar (← pyIndex cs 1)
  let y_loc_key ← pyIntChar (← pyIndex cs 2)
  let z_loc_key ← pyIntChar (← pyIndex cs 3)
  let x_loc ← xyLocTable x_loc_key
  let y_loc ← xyLocTable y_loc_key
  let z_loc ← zLocTable z_loc_key
  if ndim = 3 then
    if z_loc = "surface" then
      return some [y_loc, x_loc]
    else
      return some [z_loc, y_loc, x_loc]
  else if ndim = 2 then
    return some [z_loc, y_loc, x_loc]
  else
    return none

/-- Claim-side horizontal table, written from the spec's words: the X and Y
staggering digits map through "1 -> cell-center-X ('XT'), 2 -> cell-face-X
('XU')".  Used only to state the decoder claims. -/
def specHorizTable (c : Char) : String :=
  if c = '1' then "XT" else "XU"

/-- Claim-side vertical table, written from the spec's words:
"0 -> 'surface', 1 -> 'z_t', 2 -> 'z_w'".  Used only to state the decoder
claims. -/
def specVertTable (c : Char) : String :=
  if c = '0' then "surface" else if c = '1' then "z_t" else "z_w"

/-! ## The comodo annotation / grid-building path (`_create_grid`, lines 15-65)

A dataset is modelled, for this path, by its dimension coordinates: the
ordered mapping from dimension name to that dimension coordinate's
attribute dict.  This is exactly the state `_create_grid` reads and
mutates ("dataset.dims" and "dataset[dim].attrs"); the scope is datasets
in which every dimension has a coordinate variable, as at all call sites.
Attribute dicts are insertion-ordered association lists with unique keys;
updating an existing key keeps its position, as a Python dict does. -/

/-- An attribute value: either a plain string, or the Python "str(q)" form
of a number q, kept symbolic. -/
inductive AVal where
  | s (v : String)
  | numStr (q : ℚ)
deriving DecidableEq

/-- An attribute dict. -/
abbrev Attrs := List (String × AVal)

/-- Dict read: "a.get(k)" (the entry with key k; first, should a model
value ever hold a duplicate key). -/
def getAttr : Attrs → String → Option AVal
  | [], _ => none
  | kv :: a, k => if kv.1 = k then some kv.2 else getAttr a k

/-- Dict write "a[k] = v": an existing key keeps its position, a new key is
appended. -/
def setAttr (a : Attrs) (k : String) (v : AVal) : Attrs :=
  if a.any (fun kv => kv.1 = k) then
    a.map (fun kv => if kv.1 = k then (k, v) else kv)
  else
    a ++ [(k, v)]

/-- Dict removal "a.pop(k, None)". -/
def popAttr (a : Attrs) (k : String) : Attrs :=
  a.filter (fun kv => kv.1 ≠ k)

/-- The dimension coordinates of a dataset: dimension name, with the
attribute dict of that dimension's coordinate variable. -/
abbrev DimCoords := List (String × Attrs)

/-- Python "dim in dataset.dims". -/
def dimMem (d : DimCoords) (n : String) : Bool :=
  d.any (fun p => p.1 = n)

/-- The attrs of dimension n's coordinate, when n is a dimension. -/
def getDim : DimCoords → String → Option Attrs
  | [], _ => none
  | p :: d, n => if p.1 = n then some p.2 else getDim d n

/-- Lines 35-37: "for dim in dataset.dims: dataset[dim].attrs.pop('axis',
None); dataset[dim].attrs.pop('c_grid_axis_shift', None)" — in-place on
the caller's dataset. -/
def stripDimAttrs (d : DimCoords) : DimCoords :=
  d.map (fun p => (p.1, popAttr (popAttr p.2 "axis") "c_grid_axis_shift"))

/-- In-place "dataset[n].attrs[k] = v". -/
def setDimAttr (d : DimCoords) (n k : String) (v : AVal) : DimCoords :=
  d.map (fun p => if p.1 = n then (p.1, setAttr p.2 k v) else p)

/-- The axis specification ("coords" argument): axis label to an ordered
mapping from dimension name to an optional numeric shift. -/
abbrev AxisSpec := List (String × List (String × Option ℚ))

/-- The body of the inner loop, lines 46-52, for one (axis, dim, shift)
entry, threading the dataset and the accumulated "warn_dims" list: a
missing dimension is collected; an existing one gets its "axis" attribute
set, and — "if shift:" being Python truthiness — its "c_grid_axis_shift"
attribute set to str(shift) only when shift is neither None nor zero. -/
def annotatePair (st : DimCoords × List String) (axis : String)
    (pr : String × Option ℚ) : DimCoords × List String :=
  if dimMem st.1 pr.1 = false then
    (st.1, st.2 ++ [pr.1])
  else
    let d1 := setDimAttr st.1 pr.1 "axis" (AVal.s axis)
    match pr.2 with
    | some q => if q ≠ 0 then (setDimAttr d1 pr.1 "c_grid_axis_shift" (AVal.numStr q), st.2)
                else (d1, st.2)
    | none => (d1, st.2)

/-- Lines 43-52: the nested loops over the axis spec.  An empty spec also
covers Python's "if coords:" guard (a fold over nothing changes
nothing). -/
def annotateAxes (d : DimCoords) (coords : AxisSpec) : DimCoords × List String :=
  coords.foldl (fun st ax => ax.2.foldl (fun st2 pr => annotatePair st2 ax.1 pr) st) (d, [])

/-- The (axis, dim, shift) entries of an axis spec in iteration order; used
to state properties of the nested loops. -/
def specEntries (coords : AxisSpec) : List (String × String × Option ℚ) :=
  coords.flatMap (fun ax => ax.2.map (fun pr => (ax.1, pr.1, pr.2)))

/-- One inner-loop step as a function of a flattened (axis, dim, shift)
entry; the nested loops of `annotateAxes` fold this over `specEntries`. -/
def entryStep (st : DimCoords × List String) (e : String × String × Option ℚ) :
    DimCoords × List String :=
  annotatePair st e.1 e.2

/-- Modelled from the spec: the xgcm Grid object is built by an external
library whose code is not part of this repository; per the spec it
"holds, for each resolved axis label, the identity of its coordinate
dimensions and their staggering relationship", an axis label appears
"only if at least one of its declared dimensions actually exists in the
dataset", and axes are resolved from the comodo "axis" attributes the
annotation wrote onto the dimension coordinates. -/
structure Grid where
  axes : List String
  periodic : List String
deriving DecidableEq

/-- The axis label an attribute dict declares: the value of its comodo
"axis" attribute, when that is a string. -/
def axisOf (a : Attrs) : Option String :=
  match getAttr a "axis" with
  | some (AVal.s v) => some v
  | _ => none

/-- Modelled from the spec: the axis labels xgcm resolves from the
annotated dataset — the distinct values of the "axis" attribute over the
dimension coordinates. -/
def resolvedAxes (d : DimCoords) : List String :=
  (d.filterMap (fun p => axisOf p.2)).dedup

/-- The axis label the coordinate of dimension n declares, if any. -/
def axisOnDim (d : DimCoords) (n : String) : Option String :=
  match getDim d n with
  | some a => axisOf a
  | none => none

/-- Model of `_create_grid` (lines 15-65).  Returns the post-call state of
the caller's dataset (the function mutates it in place), the warnings
emitted (line 53-56 warns once, with the whole "warn_dims" list, when it
is non-empty), and the grid — built with or without face connections
(lines 58-61, same resolved axes either way) and replaced by None when it
has no axes (lines 62-63). -/
def create_grid (dataset : DimCoords) (coords : AxisSpec) (periodic : List String)
    (face_connections : Option Unit) : DimCoords × List (List String) × Option Grid :=
  let d0 := stripDimAttrs dataset
  let st := annotateAxes d0 coords
  let warns := if st.2.length ≠ 0 then [st.2] else []
  let grid :=
    match face_connections with
    | none => Grid.mk (resolvedAxes st.1) periodic
    | some _ => Grid.mk (resolvedAxes st.1) periodic
  let grid := if grid.axes.length = 0 then none else some grid
  (st.1, warns, grid)

/-- Claim-side: the staggering-shift attribute value the annotation is
expected to leave on a dimension whose spec entry carries `shift` — the
string form of the shift when the shift is truthy (neither None nor
zero), and no attribute otherwise. -/
def truthyShiftAttr (shift : Option ℚ) : Option AVal :=
  match shift with
  | some q => if q ≠ 0 then some (AVal.numStr q) else none
  | none => none

/-! ## The POP relabeling path (lines 359-472)

For this path a dataset is the ordered mapping from variable name to
variable; a variable has its dimension-name tuple, an abstract data
buffer (identified by a number: relabeling never touches buffers), and a
string-valued attribute dict ("grid_loc" attributes are strings). -/

/-- A variable of a POP dataset. -/
structure PVar where
  dims : List String
  data : Nat
  attrs : List (String × String)
deriving DecidableEq

/-- A POP dataset: ordered variable-name to variable mapping. -/
abbrev PDs := List (String × PVar)

/-- String-dict read. -/
def pGetAttr : List (String × String) → String → Option String
  | [], _ => none
  | kv :: a, k => if kv.1 = k then some kv.2 else pGetAttr a k

/-- String-dict write: an existing key keeps its position, a new key is
appended. -/
def pSetAttr (a : List (String × String)) (k v : String) : List (String × String) :=
  if a.any (fun kv => kv.1 = k) then
    a.map (fun kv => if kv.1 = k then (k, v) else kv)
  else
    a ++ [(k, v)]

/-- The "grid_locs" registry of `_label_coord_grid_locs` (lines 413-448),
transcribed entry for entry in source order. -/
def grid_locs : List (String × String) :=
  [("ANGLE", "2220"), ("ANGLET", "2110"),
   ("DXT", "2110"), ("DXU", "2220"),
   ("DYT", "2110"), ("DYU", "2220"),
   ("HT", "2110"), ("HU", "2220"),
   ("HTE", "2210"), ("HTN", "2120"),
   ("HUS", "2210"), ("HUW", "2120"),
   ("KMT", "2110"), ("KMU", "2220"),
   ("REGION_MASK", "2110"),
   ("TAREA", "2110"), ("TLAT", "2110"), ("TLONG", "2110"),
   ("UAREA", "2220"), ("ULAT", "2220"), ("ULONG", "2220"),
   ("ADVU", "3221"), ("ADVV", "3221"),
   ("DIA_IMPVF_SALT", "3112"), ("DIA_IMPVF_TEMP", "3112"),
   ("EVAP_F", "2110"), ("GRADX", "3221"), ("GRADY", "3221"),
   ("HBLT", "2110"), ("HMXL", "2110"),
   ("HDIFB_SALT", "3112"), ("HDIFB_TEMP", "3112"),
   ("HDIFE_SALT", "3211"), ("HDIFE_TEMP", "3211"),
   ("HDIFN_SALT", "3121"), ("HDIFN_TEMP", "3121"),
   ("HDIFFU", "3221"), ("HDIFFV", "3221"),
   ("KPP_SRC_SALT", "3111"), ("KPP_SRC_TEMP", "3111"),
   ("LWDN_F", "2110"), ("LWUP_F", "2110"),
   ("MELTH_F", "2110"), ("MELT_F", "2110"),
   ("PD", "3111"), ("PREC_F", "2110"), ("QFLUX", "2110"),
   ("QSW_3D", "3111"), ("ROFF_F", "2110"), ("SALT", "3111"),
   ("SALT_F", "2110"), ("SENH_F", "2110"), ("SFWF", "2110"),
   ("SFWF_WRST", "2110"), ("SHF", "2110"), ("SHF_QSW", "2110"),
   ("SNOW_F", "2110"), ("SSH", "2110"), ("SSH2", "2110"),
   ("SU", "2220"), ("SV", "2220"), ("TAUX", "2220"), ("TAUY", "2220"),
   ("TBLT", "2110"), ("TEMP", "3111"), ("TEND_TEMP", "3111"),
   ("TEND_SALT", "3111"), ("TMXL", "2110"),
   ("UES", "3211"), ("UET", "3211"), ("UV", "3221"),
   ("UVEL", "3221"), ("UVEL2", "3221"),
   ("VVEL", "3221"), ("VVEL2", "3221"),
   ("VDIFFU", "3221"), ("VDIFFV", "3221"),
   ("VNS", "3121"), ("VNT", "3121"),
   ("WTS", "3112"), ("WTT", "3112"), ("WVEL", "3222"),
   ("XBLT", "2110"), ("XMXL", "2110")]

/-- Model of `_label_coord_grid_locs` (lines 396-453): copy the dataset and
give every variable whose name is in the registry a "grid_loc"
attribute. -/
def label_coord_grid_locs (ds : PDs) : PDs :=
  ds.map (fun p =>
    match grid_locs.find? (fun g => g.1 = p.1) with
    | some g => (p.1, PVar.mk p.2.dims p.2.data (pSetAttr p.2.attrs "grid_loc" g.2))
    | none => p)

/-- Model of `_add_pop_dims_to_dataset` (lines 359-373).  The module
imports `numpy` (line 6) but the function body references the undefined
name `np` (lines 361-364); the first statement after "ds.copy()"
therefore raises "NameError: name 'np' is not defined" on every call,
before any axis is created or any attribute written, so the function is
the constant NameError.  (Were `np` bound, line 364 would additionally
reassign the variable "XT" of line 363 — with the Y axis label and the
nlat length — instead of creating a "YT" variable, leaving three new
horizontal axes rather than four, and lines 368-371 would look up the
capitalized names "Z_t", "Z_w", "Z_w_top", "Z_w_bot" which the line-367
set_coords call spells in lower case.) -/
def add_pop_dims_to_dataset (_ds : PDs) : Except PyErr PDs :=
  .error .nameError

/-- The body of the loop of `_relabel_pop_dims` (lines 462-471) for one
variable carrying a "grid_loc" attribute: decode the code (errors
propagate), read "dims_orig[0]" (IndexError on a 0-dimensional
variable), prepend "Nt" exactly when the leading original dimension is
"Nt" (a None decode makes the tuple construction a TypeError), and
rebuild the variable with the new dimensions and the same data buffer
and attributes. -/
def relabelVar (v : PVar) : Except PyErr PVar :=
  match pGetAttr v.attrs "grid_loc" with
  | none => .ok v
  | some code => do
      let nsd ← dims_from_grid_loc code
      match v.dims with
      | [] => .error .indexError
      | d0 :: _ =>
        match nsd with
        | none => .error .typeError
        | some sd =>
          let dims := if d0 = "Nt" then "Nt" :: sd else sd
          .ok (PVar.mk dims v.data v.attrs)

/-- The loop of lines 462-471 over every variable, in order. -/
def relabelLoop (ds : PDs) : Except PyErr PDs :=
  ds.mapM (fun p => do
    let v ← relabelVar p.2
    pure (p.1, v))

/-- Model of `_relabel_pop_dims` (lines 456-472): registry tagging, then
the axis-synthesis step, then the per-variable dimension rewrite.  The
second step raises NameError on every input (see
`add_pop_dims_to_dataset`), so the pipeline never reaches the loop. -/
def relabel_pop_dims (ds : PDs) : Except PyErr PDs := do
  let ds1 := label_coord_grid_locs ds
  let ds2 ← add_pop_dims_to_dataset ds1
  relabelLoop ds2

/-! ## Concrete inputs used by counterexamples, witnesses and evaluations -/

/-- A dataset, for the grid path, with one dimension "X" whose coordinate
carries pre-existing comodo attributes. -/
def exStale : DimCoords :=
  [("X", [("axis", AVal.s "T"), ("c_grid_axis_shift", AVal.s "0.5")])]

/-- A dataset, for the grid path, with one bare dimension "x". -/
def exBareX : DimCoords := [("x", [])]

/-- An axis spec assigning dimension "x" to axis "X" with shift 0. -/
def exSpecShift0 : AxisSpec := [("X", [("x", some 0)])]

/-- A dataset with dimensions "x" and "y". -/
def exXY : DimCoords := [("x", []), ("y", [])]

/-- An axis spec naming one existing dimension ("x") and two absent ones
("foo" under axis "X", "bar" under axis "Y"). -/
def exSpecAbsent : AxisSpec :=
  [("X", [("x", some (1 : ℚ)), ("foo", none)]), ("Y", [("bar", none)])]

/-- An axis spec whose dimension names all exist in `exXY`. -/
def exSpecPresent : AxisSpec :=
  [("X", [("x", some (1 : ℚ))]), ("Y", [("y", none)])]

/-- An axis spec naming no existing dimension of `exXY`. -/
def exSpecNone : AxisSpec := [("Z", [("zz", none)])]

/-- A POP dataset with the registered variable "TEMP" (code 3111). -/
def exPopTemp : PDs :=
  [("TEMP", PVar.mk ["z_t_old", "nlat", "nlon"] 7 [])]

/-- A POP dataset none of whose variable names is in the registry. -/
def exPopForeign : PDs :=
  [("foo", PVar.mk ["nlat", "nlon"] 1 []), ("bar", PVar.mk ["z"] 2 [("units", "m")])]

/-- A generic POP dataset for evaluating the axis-synthesis step. -/
def exPopPlain : PDs :=
  [("nlon", PVar.mk ["nlon"] 0 []), ("nlat", PVar.mk ["nlat"] 1 [])]

end OspyUtils

/-! # Theorems

First the decoder (`_dims_from_grid_loc`), then the annotation/grid path
(`_create_grid`), then the POP relabeling pipeline. -/

namespace OspyUtils

theorem bindE_ok {ε α β : Type} (a : α) (f : α → Except ε β) :
    (Bind.bind (Except.ok a) f : Except ε β) = f a := rfl

theorem bindE_error {ε α β : Type} (e : ε) (f : α → Except ε β) :
    (Bind.bind (Except.error e) f : Except ε β) = Except.error e := rfl

theorem get?_take_lt {α : Type} : ∀ (n i : Nat) (l : List α), i < n →
    (l.take n).get? i = l.get? i := by
  intro n
  induction n with
  | zero => omega
  | succ n ih =>
    intro i l h
    cases l with
    | nil => simp
    | cons a t =>
      cases i with
      | zero => rfl
      | succ j => simpa using ih j t (by omega)

theorem dims_from_grid_loc_ok_length (s : String) (r : Option (List String))
    (h : dims_from_grid_loc s = .ok r) : 4 ≤ s.length := by
  by_contra hlt
  push_neg at hlt
  have hd : s.data.length < 4 := hlt
  rcases s with ⟨cs⟩
  match cs, hd with
  | [], _ =>
    simp [dims_from_grid_loc, pyIndex, bindE_error] at h
  | [a], _ =>
    by_cases hdig : a.isDigit <;>
      simp [dims_from_grid_loc, pyIndex, pyIntChar, hdig, bindE_error, bindE_ok] at h
  | [a, b], _ =>
    by_cases hdig : a.isDigit <;> by_cases hdig2 : b.isDigit <;>
      simp [dims_from_grid_loc, pyIndex, pyIntChar, hdig, hdig2, bindE_error, bindE_ok] at h
  | [a, b, c], _ =>
    by_cases hdig : a.isDigit <;> by_cases hdig2 : b.isDigit <;> by_cases hdig3 : c.isDigit <;>
      simp [dims_from_grid_loc, pyIndex, pyIntChar, hdig, hdig2, hdig3,
        bindE_error, bindE_ok] at h
  | _ :: _ :: _ :: _ :: _, hd => simp at hd; omega

theorem pyIndex_take4 (l : List Char) (i : Nat) (h : i < 4) :
    pyIndex (l.take 4) i = pyIndex l i := by
  unfold pyIndex
  rw [get?_take_lt 4 i l h]

theorem pyIndex_take4_0 (l : List Char) : pyIndex (l.take 4) 0 = pyIndex l 0 :=
  pyIndex_take4 l 0 (by omega)

theorem pyIndex_take4_1 (l : List Char) : pyIndex (l.take 4) 1 = pyIndex l 1 :=
  pyIndex_take4 l 1 (by omega)

theorem pyIndex_take4_2 (l : List Char) : pyIndex (l.take 4) 2 = pyIndex l 2 :=
  pyIndex_take4 l 2 (by omega)

theorem pyIndex_take4_3 (l : List Char) : pyIndex (l.take 4) 3 = pyIndex l 3 :=
  pyIndex_take4 l 3 (by omega)

theorem dims_from_grid_loc_take4 (s : String) :
    dims_from_grid_loc (String.mk (s.data.take 4)) = dims_from_grid_loc s := by
  show dims_from_grid_loc ⟨s.data.take 4⟩ = dims_from_grid_loc s
  simp only [dims_from_grid_loc]
  simp only [pyIndex_take4_0, pyIndex_take4_1, pyIndex_take4_2, pyIndex_take4_3]

theorem char_digit_cases (a : Char) (h : a.isDigit = true) :
    a = '0' ∨ a = '1' ∨ a = '2' ∨ a = '3' ∨ a = '4' ∨ a = '5' ∨ a = '6' ∨ a = '7' ∨
      a = '8' ∨ a = '9' := by
  simp only [Char.isDigit, Bool.and_eq_true, decide_eq_true_eq] at h
  obtain ⟨h1, h2⟩ := h
  have hh1 : 48 ≤ a.val.toNat := h1
  have hh2 : a.val.toNat ≤ 57 := h2
  have key : ∀ b : Char, a.val.toNat = b.val.toNat → a = b := by
    intro b hb
    exact Char.ext (UInt32.ext hb)
  have hcases : a.val.toNat = ('0' : Char).val.toNat ∨ a.val.toNat = ('1' : Char).val.toNat ∨
      a.val.toNat = ('2' : Char).val.toNat ∨ a.val.toNat = ('3' : Char).val.toNat ∨
      a.val.toNat = ('4' : Char).val.toNat ∨ a.val.toNat = ('5' : Char).val.toNat ∨
      a.val.toNat = ('6' : Char).val.toNat ∨ a.val.toNat = ('7' : Char).val.toNat ∨
      a.val.toNat = ('8' : Char).val.toNat ∨ a.val.toNat = ('9' : Char).val.toNat := by
    have e0 : ('0' : Char).val.toNat = 48 := by decide
    have e1 : ('1' : Char).val.toNat = 49 := by decide
    have e2 : ('2' : Char).val.toNat = 50 := by decide
    have e3 : ('3' : Char).val.toNat = 51 := by decide
    have e4 : ('4' : Char).val.toNat = 52 := by decide
    have e5 : ('5' : Char).val.toNat = 53 := by decide
    have e6 : ('6' : Char).val.toNat = 54 := by decide
    have e7 : ('7' : Char).val.toNat = 55 := by decide
    have e8 : ('8' : Char).val.toNat = 56 := by decide
    have e9 : ('9' : Char).val.toNat = 57 := by decide
    omega
  rcases hcases with hc | hc | hc | hc | hc | hc | hc | hc | hc | hc
  · exact Or.inl (key _ hc)
  · exact Or.inr (Or.inl (key _ hc))
  · exact Or.inr (Or.inr (Or.inl (key _ hc)))
  · exact Or.inr (Or.inr (Or.inr (Or.inl (key _ hc))))
  · exact Or.inr (Or.inr (Or.inr (Or.inr (Or.inl (key _ hc)))))
  · exact Or.inr (Or.inr (Or.inr (Or.inr (Or.inr (Or.inl (key _ hc))))))
  · exact Or.inr (Or.inr (Or.inr (Or.inr (Or.inr (Or.inr (Or.inl (key _ hc)))))))
  · exact Or.inr (Or.inr (Or.inr (Or.inr (Or.inr (Or.inr (Or.inr (Or.inl (key _ hc))))))))
  · exact Or.inr (Or.inr (Or.inr (Or.inr (Or.inr (Or.inr (Or.inr (Or.inr (Or.inl (key _ hc)))))))))
  · exact Or.inr (Or.inr (Or.inr (Or.inr (Or.inr (Or.inr (Or.inr (Or.inr (Or.inr (key _ hc)))))))))

/-- C1: for every well-formed 4-character placement code, the decoder maps
the X and Y staggering digits through the single shared horizontal table
(1 to "XT", 2 to "XU") and the Z digit through (0 to "surface", 1 to
"z_t", 2 to "z_w"), and returns the 2-tuple (Y, X) when the
dimensionality digit is 3 and the vertical position is "surface", the
3-tuple (Z, Y, X) when the dimensionality digit is 3 otherwise, and the
3-tuple (Z, Y, X) unconditionally when the dimensionality digit is 2; in
particular decoding "3111" gives ("z_t", "XT", "XT"). -/
theorem dims_from_grid_loc_wellformed_codes (a b c d : Char)
    (ha : a = '2' ∨ a = '3') (hb : b = '1' ∨ b = '2') (hc : c = '1' ∨ c = '2')
    (hd : d = '0' ∨ d = '1' ∨ d = '2') :
    dims_from_grid_loc (String.mk [a, b, c, d]) =
      .ok (some (if a = '3' ∧ d = '0'
        then [specHorizTable c, specHorizTable b]
        else [specVertTable d, specHorizTable c, specHorizTable b])) ∧
    dims_from_grid_loc "3111" = .ok (some ["z_t", "XT", "XT"]) := by
  rcases ha with rfl | rfl <;> rcases hb with rfl | rfl <;> rcases hc with rfl | rfl <;>
    rcases hd with rfl | rfl | rfl <;> exact ⟨by decide, by decide⟩

/-- C1 witness: the well-formedness theorem applied at the concrete code
"3111". -/
theorem dims_from_grid_loc_wellformed_codes_witness :
    dims_from_grid_loc (String.mk ['3', '1', '1', '1']) =
      .ok (some (if ('3' : Char) = '3' ∧ ('1' : Char) = '0'
        then [specHorizTable '1', specHorizTable '1']
        else [specVertTable '1', specHorizTable '1', specHorizTable '1'])) ∧
    dims_from_grid_loc "3111" = .ok (some ["z_t", "XT", "XT"]) :=
  dims_from_grid_loc_wellformed_codes '3' '1' '1' '1' (Or.inr rfl) (Or.inl rfl) (Or.inl rfl)
    (Or.inr (Or.inl rfl))

/-- C3 counterexample: the 5-character code "31112" is not rejected — the
decoder silently truncates it to its first four characters and returns
the dimension tuple of "3111", contrary to the claim that every
non-4-character code fails fast with a descriptive error. -/
theorem dims_from_grid_loc_silent_truncation_cex :
    "31112".length ≠ 4 ∧ dims_from_grid_loc "31112" = .ok (some ["z_t", "XT", "XT"]) :=
  ⟨by decide, by decide⟩

/-- C3 amended: a code shorter than 4 characters fails (with an IndexError
or ValueError, not a length-specific message) and never returns a value,
while the decoder reads only the first four characters of its input, so
any longer code is silently truncated to its first four characters. -/
theorem dims_from_grid_loc_length_behavior (s : String) :
    (s.length < 4 → ∀ r, dims_from_grid_loc s ≠ .ok r) ∧
    dims_from_grid_loc (String.mk (s.data.take 4)) = dims_from_grid_loc s := by
  constructor
  · intro hlt r h
    have := dims_from_grid_loc_ok_length s r h
    omega
  · exact dims_from_grid_loc_take4 s

/-- C10: for every 4-character code whose staggering digits are valid (X
and Y digits in 1..2, Z digit in 0..2) but whose leading dimensionality
digit is a digit other than 2 or 3, the decoder returns no tuple at all
(Python None, modelled as ok-none): it neither raises nor produces a
dimension tuple. -/
theorem dims_from_grid_loc_ndim_out_of_range (a b c d : Char)
    (ha : a.isDigit = true) (ha2 : a ≠ '2') (ha3 : a ≠ '3')
    (hb : b = '1' ∨ b = '2') (hc : c = '1' ∨ c = '2') (hd : d = '0' ∨ d = '1' ∨ d = '2') :
    dims_from_grid_loc (String.mk [a, b, c, d]) = .ok none := by
  rcases char_digit_cases a ha with rfl | rfl | rfl | rfl | rfl | rfl | rfl | rfl | rfl | rfl <;>
    first
      | exact absurd rfl ha2
      | exact absurd rfl ha3
      | (rcases hb with rfl | rfl <;> rcases hc with rfl | rfl <;>
          rcases hd with rfl | rfl | rfl <;> decide)

/-- C10 witness: the out-of-range theorem applied at the concrete code
"4111". -/
theorem dims_from_grid_loc_ndim_out_of_range_witness :
    dims_from_grid_loc (String.mk ['4', '1', '1', '1']) = .ok none :=
  dims_from_grid_loc_ndim_out_of_range '4' '1' '1' '1' (by decide) (by decide) (by decide)
    (Or.inl rfl) (Or.inl rfl) (Or.inr (Or.inl rfl))

theorem getAttr_map_set_self (t : Attrs) (k : String) (v : AVal)
    (h : t.any (fun kv => kv.1 = k) = true) :
    getAttr (t.map (fun kv => if kv.1 = k then (k, v) else kv)) k = some v := by
  induction t with
  | nil => simp at h
  | cons p t ih =>
    by_cases hp : p.1 = k
    · simp [getAttr, hp]
    · simp only [List.any_cons, Bool.or_eq_true, decide_eq_true_eq] at h
      rcases h with h | h
    
      · exact absurd h hp
      · simp [getAttr, hp, ih h]

theorem getAttr_map_set_other (t : Attrs) (k k' : String) (v : AVal) (h : k' ≠ k) :
    getAttr (t.map (fun kv => if kv.1 = k then (k, v) else kv)) k' = getAttr t k' := by
  induction t with
  | nil => rfl
  | cons p t ih =>
    by_cases hp : p.1 = k
    · have hp' : ¬ p.1 = k' := by rw [hp]; exact Ne.symm h
      simp [getAttr, hp, hp', Ne.symm h, ih]
    · by_cases hp' : p.1 = k'
      · simp [getAttr, hp, hp', h]
      · simp [getAttr, hp, hp', ih]

theorem getAttr_append_single_self (t : Attrs) (k : String) (v : AVal)
    (h : t.any (fun kv => kv.1 = k) = false) :
    getAttr (t ++ [(k, v)]) k = some v := by
  induction t with
  | nil => simp [getAttr]
  | cons p t ih =>
    simp only [List.any_cons, Bool.or_eq_false_iff, decide_eq_false_iff_not] at h
    simp [getAttr, h.1, ih (by simpa using h.2)]

theorem getAttr_append_single_other (t : Attrs) (k k' : String) (v : AVal) (h : k' ≠ k) :
    getAttr (t ++ [(k, v)]) k' = getAttr t k' := by
  induction t with
  | nil => simp [getAttr, Ne.symm h]
  | cons p t ih =>
    by_cases hp : p.1 = k'
    · simp [getAttr, hp]
    · simp [getAttr, hp, ih]

theorem getAttr_setAttr_self (a : Attrs) (k : String) (v : AVal) :
    getAttr (setAttr a k v) k = some v := by
  unfold setAttr
  cases h : a.any (fun kv => kv.1 = k) with
  | true => simpa using getAttr_map_set_self a k v h
  | false => simpa using getAttr_append_single_self a k v h

theorem getAttr_setAttr_other (a : Attrs) (k k' : String) (v : AVal) (h : k' ≠ k) :
    getAttr (setAttr a k v) k' = getAttr a k' := by
  unfold setAttr
  cases ha : a.any (fun kv => kv.1 = k) with
  | true => simpa using getAttr_map_set_other a k k' v h
  | false => simpa using getAttr_append_single_other a k k' v h

theorem getAttr_popAttr_self (a : Attrs) (k : String) :
    getAttr (popAttr a k) k = none := by
  induction a with
  | nil => rfl
  | cons p t ih =>
    by_cases hp : p.1 = k
    · simpa [popAttr, hp] using ih
    · simpa [popAttr, getAttr, hp] using ih

theorem getAttr_popAttr_other (a : Attrs) (k k' : String) (h : k' ≠ k) :
    getAttr (popAttr a k) k' = getAttr a k' := by
  induction a with
  | nil => rfl
  | cons p t ih =>
    by_cases hp : p.1 = k
    · have hp' : ¬ p.1 = k' := by rw [hp]; exact Ne.symm h
      simpa [popAttr, getAttr, hp, hp', Ne.symm h] using ih
    · by_cases hp' : p.1 = k'
      · simp [popAttr, List.filter_cons, getAttr, hp, hp', h]
      · simpa [popAttr, List.filter_cons, getAttr, hp, hp'] using ih

theorem getDim_setDimAttr_self (d : DimCoords) (n k : String) (v : AVal) :
    getDim (setDimAttr d n k v) n = (getDim d n).map (fun a => setAttr a k v) := by
  induction d with
  | nil => rfl
  | cons p t ih =>
    by_cases hp : p.1 = n
    · simp [setDimAttr, getDim, hp]
    · simpa [setDimAttr, getDim, hp] using ih

theorem getDim_setDimAttr_other (d : DimCoords) (m n k : String) (v : AVal) (h : m ≠ n) :
    getDim (setDimAttr d m k v) n = getDim d n := by
  induction d with
  | nil => rfl
  | cons p t ih =>
    by_cases hp : p.1 = m
    · have hp' : ¬ p.1 = n := by rw [hp]; exact h
      simpa [setDimAttr, getDim, hp, hp', h] using ih
    · by_cases hp' : p.1 = n
      · simp [setDimAttr, getDim, hp, hp', Ne.symm h]
      · simpa [setDimAttr, getDim, hp, hp'] using ih

theorem getDim_strip (d : DimCoords) (n : String) :
    getDim (stripDimAttrs d) n =
      (getDim d n).map (fun a => popAttr (popAttr a "axis") "c_grid_axis_shift") := by
  induction d with
  | nil => rfl
  | cons p t ih =>
    by_cases hp : p.1 = n
    · simp [stripDimAttrs, getDim, hp]
    · simpa [stripDimAttrs, getDim, hp] using ih

theorem stripDimAttrs_names (d : DimCoords) :
    (stripDimAttrs d).map Prod.fst = d.map Prod.fst := by
  unfold stripDimAttrs
  rw [List.map_map]
  rfl

theorem dimMem_getDim (d : DimCoords) (n : String) :
    dimMem d n = true ↔ (getDim d n).isSome = true := by
  induction d with
  | nil => simp [dimMem, getDim]
  | cons p t ih =>
    by_cases hp : p.1 = n
    · simp [dimMem, getDim, hp]
    · simpa [dimMem, getDim, hp] using ih


theorem annotateAxes_eq_entries (coords : AxisSpec) :
    ∀ init : DimCoords × List String,
      coords.foldl (fun st ax => ax.2.foldl (fun st2 pr => annotatePair st2 ax.1 pr) st) init =
        (specEntries coords).foldl entryStep init := by
  induction coords with
  | nil => intro init; rfl
  | cons ax rest ih =>
    intro init
    simp only [List.foldl_cons, specEntries, List.flatMap_cons, List.foldl_append]
    rw [ih]
    congr 1
    rw [List.foldl_map]
    rfl

theorem setDimAttr_names (d : DimCoords) (n k : String) (v : AVal) :
    (setDimAttr d n k v).map Prod.fst = d.map Prod.fst := by
  unfold setDimAttr
  rw [List.map_map]
  apply List.map_congr_left
  intro p _
  by_cases h : p.1 = n <;> simp [h]

theorem dimMem_eq_names (d : DimCoords) (n : String) :
    dimMem d n = (d.map Prod.fst).any (fun m => m = n) := by
  induction d with
  | nil => rfl
  | cons p t ih =>
    simp only [dimMem, List.map_cons, List.any_cons] at *
    rw [ih]

theorem dimMem_of_names (d d' : DimCoords) (h : d.map Prod.fst = d'.map Prod.fst) (n : String) :
    dimMem d n = dimMem d' n := by
  rw [dimMem_eq_names, dimMem_eq_names, h]

theorem annotatePair_names (st : DimCoords × List String) (axis : String)
    (pr : String × Option ℚ) :
    ((annotatePair st axis pr).1).map Prod.fst = (st.1).map Prod.fst := by
  unfold annotatePair
  by_cases h : dimMem st.1 pr.1 = false
  · simp [h]
  · simp only [h, if_neg]
    rcases pr.2 with _ | q
    · simp [setDimAttr_names]
    · by_cases hq : q ≠ 0 <;> simp [hq, setDimAttr_names]

theorem foldl_entryStep_names (es : List (String × String × Option ℚ)) :
    ∀ st : DimCoords × List String,
      ((es.foldl entryStep st).1).map Prod.fst = (st.1).map Prod.fst := by
  induction es with
  | nil => intro st; rfl
  | cons e rest ih =>
    intro st
    rw [List.foldl_cons, ih]
    exact annotatePair_names st e.1 e.2

theorem annotatePair_of_absent (st : DimCoords × List String) (axis : String)
    (pr : String × Option ℚ) (h : dimMem st.1 pr.1 = false) :
    annotatePair st axis pr = (st.1, st.2 ++ [pr.1]) := by
  unfold annotatePair
  rw [if_pos h]

theorem annotatePair_warn_of_present (st : DimCoords × List String) (axis : String)
    (pr : String × Option ℚ) (h : dimMem st.1 pr.1 = true) :
    (annotatePair st axis pr).2 = st.2 := by
  unfold annotatePair
  rw [if_neg (by rw [h]; exact fun hc => by cases hc)]
  rcases pr.2 with _ | q
  · rfl
  · by_cases hq : q ≠ 0 <;> simp [hq]

theorem foldl_entryStep_warn (es : List (String × String × Option ℚ)) :
    ∀ st : DimCoords × List String,
      (es.foldl entryStep st).2 =
        st.2 ++ (es.filter (fun e => !dimMem st.1 e.2.1)).map (fun e => e.2.1) := by
  induction es with
  | nil => intro st; simp
  | cons e rest ih =>
    intro st
    rw [List.foldl_cons]
    cases hmem : dimMem st.1 e.2.1 with
    | false =>
      have hstep : entryStep st e = (st.1, st.2 ++ [e.2.1]) :=
        annotatePair_of_absent st e.1 e.2 hmem
      rw [hstep, ih]
      simp [List.filter_cons, hmem, List.append_assoc]
    | true =>
      have hw : (entryStep st e).2 = st.2 := annotatePair_warn_of_present st e.1 e.2 hmem
      have hn : ((entryStep st e).1).map Prod.fst = (st.1).map Prod.fst :=
        annotatePair_names st e.1 e.2
      rw [ih, hw]
      have hfil : rest.filter (fun x => !dimMem (entryStep st e).1 x.2.1) =
          rest.filter (fun x => !dimMem st.1 x.2.1) := by
        apply List.filter_congr
        intro x _
        rw [dimMem_of_names _ _ hn]
      rw [hfil]
      simp [List.filter_cons, hmem]

theorem foldl_entryStep_unresolved (es : List (String × String × Option ℚ)) :
    ∀ st : DimCoords × List String, (∀ e ∈ es, dimMem st.1 e.2.1 = false) →
      (es.foldl entryStep st).1 = st.1 := by
  induction es with
  | nil => intro st _; rfl
  | cons e rest ih =>
    intro st h
    rw [List.foldl_cons]
    have hmem : dimMem st.1 e.2.1 = false := h e (List.mem_cons_self e rest)
    have hstep : entryStep st e = (st.1, st.2 ++ [e.2.1]) :=
      annotatePair_of_absent st e.1 e.2 hmem
    rw [hstep]
    exact ih (st.1, st.2 ++ [e.2.1]) (fun x hx => h x (List.mem_cons_of_mem e hx))

theorem annotatePair_getDim_other (st : DimCoords × List String) (axis : String)
    (pr : String × Option ℚ) (n : String) (h : pr.1 ≠ n) :
    getDim ((annotatePair st axis pr).1) n = getDim st.1 n := by
  unfold annotatePair
  cases hmem : dimMem st.1 pr.1 with
  | false => simp
  | true =>
    rw [if_neg (by simp : ¬ (true = false))]
    rcases pr.2 with _ | q <;> dsimp only
    · exact getDim_setDimAttr_other _ _ _ _ _ h
    · by_cases hq : q ≠ 0
      · rw [if_pos hq]
        exact (getDim_setDimAttr_other _ _ _ _ _ h).trans (getDim_setDimAttr_other _ _ _ _ _ h)
      · rw [if_neg hq]
        exact getDim_setDimAttr_other _ _ _ _ _ h

theorem foldl_entryStep_getDim_unmentioned (es : List (String × String × Option ℚ))
    (n : String) :
    ∀ st : DimCoords × List String, (∀ e ∈ es, e.2.1 ≠ n) →
      getDim ((es.foldl entryStep st).1) n = getDim st.1 n := by
  induction es with
  | nil => intro st _; rfl
  | cons e rest ih =>
    intro st h
    rw [List.foldl_cons, ih _ (fun x hx => h x (List.mem_cons_of_mem e hx))]
    exact annotatePair_getDim_other st e.1 e.2 n (h e (List.mem_cons_self e rest))

theorem annotatePair_getDim_self (st : DimCoords × List String) (axis : String)
    (pr : String × Option ℚ) (h : dimMem st.1 pr.1 = true) :
    getDim ((annotatePair st axis pr).1) pr.1 =
      (getDim st.1 pr.1).map (fun a0 =>
        match pr.2 with
        | some q =>
            if q ≠ 0 then
              setAttr (setAttr a0 "axis" (AVal.s axis)) "c_grid_axis_shift" (AVal.numStr q)
            else setAttr a0 "axis" (AVal.s axis)
        | none => setAttr a0 "axis" (AVal.s axis)) := by
  unfold annotatePair
  rw [h]
  rw [if_neg (by simp : ¬ (true = false))]
  rcases pr.2 with _ | q <;> dsimp only
  · exact getDim_setDimAttr_self st.1 pr.1 "axis" (AVal.s axis)
  · by_cases hq : q ≠ 0
    · simp only [if_pos hq]
      rw [getDim_setDimAttr_self, getDim_setDimAttr_self]
      cases getDim st.1 pr.1 <;> rfl
    · simp only [if_neg hq]
      exact getDim_setDimAttr_self st.1 pr.1 "axis" (AVal.s axis)

theorem getDim_of_dimMem (d : DimCoords) (n : String) (h : dimMem d n = true) :
    ∃ a, getDim d n = some a := by
  rcases Option.isSome_iff_exists.mp ((dimMem_getDim d n).mp h) with ⟨a, ha⟩
  exact ⟨a, ha⟩

theorem axisOf_after_set (a0 : Attrs) (axis : String) (sh : Option ℚ) :
    axisOf (match sh with
      | some q =>
          if q ≠ 0 then
            setAttr (setAttr a0 "axis" (AVal.s axis)) "c_grid_axis_shift" (AVal.numStr q)
          else setAttr a0 "axis" (AVal.s axis)
      | none => setAttr a0 "axis" (AVal.s axis)) = some axis := by
  rcases sh with _ | q
  · unfold axisOf
    rw [getAttr_setAttr_self]
  · by_cases hq : q ≠ 0
    · simp only [if_pos hq]
      unfold axisOf
      rw [getAttr_setAttr_other _ _ _ _ (by decide : "axis" ≠ "c_grid_axis_shift"),
        getAttr_setAttr_self]
    · simp only [if_neg hq]
      unfold axisOf
      rw [getAttr_setAttr_self]

theorem annotatePair_axisOnDim_set (st : DimCoords × List String) (axis : String)
    (pr : String × Option ℚ) (h : dimMem st.1 pr.1 = true) :
    axisOnDim ((annotatePair st axis pr).1) pr.1 = some axis := by
  unfold axisOnDim
  rw [annotatePair_getDim_self st axis pr h]
  rcases getDim_of_dimMem st.1 pr.1 h with ⟨a0, ha⟩
  rw [ha]
  exact axisOf_after_set a0 axis pr.2

theorem annotatePair_axisOnDim_mono (st : DimCoords × List String) (axis : String)
    (pr : String × Option ℚ) (n : String) (h : axisOnDim st.1 n ≠ none) :
    axisOnDim ((annotatePair st axis pr).1) n ≠ none := by
  by_cases hpn : pr.1 = n
  · subst hpn
    cases hmem : dimMem st.1 pr.1 with
    | false =>
      rw [annotatePair_of_absent st axis pr hmem]
      exact h
    | true =>
      rw [annotatePair_axisOnDim_set st axis pr hmem]
      exact fun hc => by cases hc
  · unfold axisOnDim
    rw [annotatePair_getDim_other st axis pr n hpn]
    exact h

theorem foldl_entryStep_axisOnDim_mono (es : List (String × String × Option ℚ)) (n : String) :
    ∀ st : DimCoords × List String, axisOnDim st.1 n ≠ none →
      axisOnDim ((es.foldl entryStep st).1) n ≠ none := by
  induction es with
  | nil => intro st h; exact h
  | cons e rest ih =>
    intro st h
    rw [List.foldl_cons]
    exact ih _ (annotatePair_axisOnDim_mono st e.1 e.2 n h)

theorem resolvedAxes_eq_nil_iff (d : DimCoords) :
    resolvedAxes d = [] ↔ ∀ p ∈ d, axisOf p.2 = none := by
  unfold resolvedAxes
  rw [List.dedup_eq_nil, List.filterMap_eq_nil_iff]

theorem getDim_mem (d : DimCoords) (n : String) (a : Attrs) (h : getDim d n = some a) :
    (n, a) ∈ d := by
  induction d with
  | nil => cases h
  | cons p t ih =>
    by_cases hp : p.1 = n
    · rw [getDim, if_pos hp] at h
      have : p = (n, a) := by
        rcases p with ⟨p1, p2⟩
        cases h
        rw [Prod.mk.injEq]
        exact ⟨hp, rfl⟩
      rw [← this]
      exact List.mem_cons_self p t
    · rw [getDim, if_neg hp] at h
      exact List.mem_cons_of_mem p (ih h)

theorem axisOf_strip (d : DimCoords) : ∀ p ∈ stripDimAttrs d, axisOf p.2 = none := by
  intro p hp
  rcases List.mem_map.mp hp with ⟨q, _, hq⟩
  rw [← hq]
  unfold axisOf
  rw [getAttr_popAttr_other _ _ _ (by decide : "axis" ≠ "c_grid_axis_shift"),
    getAttr_popAttr_self]

theorem annotateAxes_entries (d : DimCoords) (coords : AxisSpec) :
    annotateAxes d coords = (specEntries coords).foldl entryStep (d, []) := by
  unfold annotateAxes
  exact annotateAxes_eq_entries coords (d, [])

theorem resolved_after_fold (d : DimCoords) (es : List (String × String × Option ℚ)) :
    resolvedAxes ((es.foldl entryStep (stripDimAttrs d, ([] : List String))).1) = [] ↔
      ¬ ∃ e ∈ es, dimMem d e.2.1 = true := by
  constructor
  · rintro hnil ⟨e, he, hmem⟩
    rcases List.append_of_mem he with ⟨es1, es2, rfl⟩
    rw [List.foldl_append, List.foldl_cons] at hnil
    have hnames : ((es1.foldl entryStep (stripDimAttrs d, ([] : List String))).1).map Prod.fst =
        d.map Prod.fst := by
      rw [foldl_entryStep_names]
      exact stripDimAttrs_names d
    have hmem1 : dimMem (es1.foldl entryStep (stripDimAttrs d, ([] : List String))).1 e.2.1 =
        true := by
      rw [dimMem_of_names _ d hnames]
      exact hmem
    have hset := annotatePair_axisOnDim_set
      (es1.foldl entryStep (stripDimAttrs d, ([] : List String))) e.1 e.2 hmem1
    have hseed : axisOnDim
        ((entryStep (es1.foldl entryStep (stripDimAttrs d, ([] : List String))) e).1) e.2.1 ≠
          none := by
      rw [show entryStep (es1.foldl entryStep (stripDimAttrs d, ([] : List String))) e =
        annotatePair (es1.foldl entryStep (stripDimAttrs d, ([] : List String))) e.1 e.2 from
          rfl, hset]
      exact fun hc => by cases hc
    have hmono := foldl_entryStep_axisOnDim_mono es2 e.2.1 _ hseed
    have hall := (resolvedAxes_eq_nil_iff _).mp hnil
    revert hmono
    unfold axisOnDim
    cases hg : getDim
        ((es2.foldl entryStep
          (entryStep (es1.foldl entryStep (stripDimAttrs d, ([] : List String))) e)).1) e.2.1 with
    | none => exact fun hmono => hmono rfl
    | some a => exact fun hmono => hmono (hall (e.2.1, a) (getDim_mem _ _ _ hg))
  · intro hno
    have hnone : ∀ e ∈ es, dimMem (stripDimAttrs d, ([] : List String)).1 e.2.1 = false := by
      intro e he
      have : dimMem (stripDimAttrs d) e.2.1 = dimMem d e.2.1 :=
        dimMem_of_names _ d (stripDimAttrs_names d) e.2.1
      rw [this]
      cases hm : dimMem d e.2.1 with
      | false => rfl
      | true => exact absurd ⟨e, he, hm⟩ hno
    rw [foldl_entryStep_unresolved es (stripDimAttrs d, []) hnone]
    exact (resolvedAxes_eq_nil_iff _).mpr (axisOf_strip d)

theorem create_grid_components (d : DimCoords) (coords : AxisSpec) (p : List String)
    (fc : Option Unit) :
    create_grid d coords p fc =
      ((annotateAxes (stripDimAttrs d) coords).1,
       (if (annotateAxes (stripDimAttrs d) coords).2.length ≠ 0 then
          [(annotateAxes (stripDimAttrs d) coords).2] else []),
       (if (resolvedAxes (annotateAxes (stripDimAttrs d) coords).1).length = 0 then none
        else some (Grid.mk (resolvedAxes (annotateAxes (stripDimAttrs d) coords).1) p))) := by
  unfold create_grid
  cases fc <;> rfl

/-- C7: the grid builder returns null exactly when no axis label of the
spec resolved to an existing dimension of the dataset (equivalently,
when the constructed topology object has zero resolved axes), and it
never returns a grid object with an empty axis list. -/
theorem create_grid_null_grid_iff (d : DimCoords) (coords : AxisSpec) (p : List String)
    (fc : Option Unit) :
    ((create_grid d coords p fc).2.2 = none ↔
      ¬ ∃ e ∈ specEntries coords, dimMem d e.2.1 = true) ∧
    ∀ g, (create_grid d coords p fc).2.2 = some g → g.axes ≠ [] := by
  rw [create_grid_components, annotateAxes_entries]
  dsimp only
  constructor
  · by_cases hR : (resolvedAxes ((specEntries coords).foldl entryStep
        (stripDimAttrs d, [])).1).length = 0
    · rw [if_pos hR]
      have hnil := List.length_eq_zero.mp hR
      simp only [true_iff]
      exact (resolved_after_fold d (specEntries coords)).mp hnil
    · rw [if_neg hR]
      constructor
      · intro hc
        cases hc
      · intro hno
        exact absurd (List.length_eq_zero.mpr
          ((resolved_after_fold d (specEntries coords)).mpr hno)) hR
  · intro g hg
    by_cases hR : (resolvedAxes ((specEntries coords).foldl entryStep
        (stripDimAttrs d, [])).1).length = 0
    · rw [if_pos hR] at hg
      cases hg
    · rw [if_neg hR] at hg
      cases hg
      intro hax
      exact hR (List.length_eq_zero.mpr hax)

theorem create_grid_warn_list (d : DimCoords) (coords : AxisSpec) :
    (annotateAxes (stripDimAttrs d) coords).2 =
      ((specEntries coords).filter (fun e => !dimMem d e.2.1)).map (fun e => e.2.1) := by
  rw [annotateAxes_entries, foldl_entryStep_warn]
  rw [List.nil_append]
  congr 1
  apply List.filter_congr
  intro e _
  rw [dimMem_of_names (stripDimAttrs d) d (stripDimAttrs_names d) e.2.1]

/-- C6: when every dimension name of the axis spec exists in the dataset,
annotation emits no warning; when at least one is absent, annotation (a
total function here — it raises no exception) emits exactly one warning
whose message names all and only the absent dimension names. -/
theorem create_grid_warning_policy (d : DimCoords) (coords : AxisSpec) (p : List String)
    (fc : Option Unit) :
    ((∀ e ∈ specEntries coords, dimMem d e.2.1 = true) →
      (create_grid d coords p fc).2.1 = []) ∧
    ((∃ e ∈ specEntries coords, dimMem d e.2.1 = false) →
      ∃ msg, (create_grid d coords p fc).2.1 = [msg] ∧
        ∀ x, x ∈ msg ↔ ((∃ e ∈ specEntries coords, e.2.1 = x) ∧ dimMem d x = false)) := by
  rw [create_grid_components]
  dsimp only
  rw [create_grid_warn_list]
  constructor
  · intro hall
    have hfil : (specEntries coords).filter (fun e => !dimMem d e.2.1) = [] := by
      rw [List.filter_eq_nil_iff]
      intro e he
      rw [hall e he]
      simp
    rw [hfil]
    simp
  · rintro ⟨e, he, hmem⟩
    have hfil : e ∈ (specEntries coords).filter (fun e => !dimMem d e.2.1) :=
      List.mem_filter.mpr ⟨he, by rw [hmem]; rfl⟩
    have hlen : (((specEntries coords).filter (fun e => !dimMem d e.2.1)).map
        (fun e => e.2.1)).length ≠ 0 := by
      intro hc
      rw [List.length_eq_zero, List.map_eq_nil_iff] at hc
      rw [hc] at hfil
      cases hfil
    rw [if_pos hlen]
    refine ⟨_, rfl, ?_⟩
    intro x
    constructor
    · intro hx
      rcases List.mem_map.mp hx with ⟨e2, he2, hxe⟩
      have he2' := List.mem_filter.mp he2
      have hdm : dimMem d e2.2.1 = false := by
        have := he2'.2
        cases hdm2 : dimMem d e2.2.1 with
        | false => rfl
        | true => rw [hdm2] at this; cases this
      exact ⟨⟨e2, he2'.1, hxe⟩, by rw [← hxe]; exact hdm⟩
    · rintro ⟨⟨e2, he2, hxe⟩, hdm⟩
      apply List.mem_map.mpr
      refine ⟨e2, List.mem_filter.mpr ⟨he2, ?_⟩, hxe⟩
      rw [hxe, hdm]
      rfl

/-- C4 amended: grid building mutates the caller's dataset in place — after
the call, a dimension the axis spec does not name keeps all its
attributes except any pre-existing "axis" and "c_grid_axis_shift"
entries, which have been removed from the caller's dataset (dimensions
the spec names additionally receive the fresh annotation, see the
shift-truthiness theorem). -/
theorem create_grid_in_place_strip (d : DimCoords) (coords : AxisSpec) (p : List String)
    (fc : Option Unit) (n : String) (hn : ∀ e ∈ specEntries coords, e.2.1 ≠ n) :
    getDim ((create_grid d coords p fc).1) n =
      (getDim d n).map (fun a => popAttr (popAttr a "axis") "c_grid_axis_shift") := by
  rw [create_grid_components]
  dsimp only
  rw [annotateAxes_entries,
    foldl_entryStep_getDim_unmentioned (specEntries coords) n (stripDimAttrs d, []) hn]
  exact getDim_strip d n

/-- C4 witness: the in-place strip theorem applied to the one-dimension
dataset with stale comodo attributes and the empty axis spec. -/
theorem create_grid_in_place_strip_witness :
    getDim ((create_grid exStale [] [] none).1) "X" =
      (getDim exStale "X").map (fun a => popAttr (popAttr a "axis") "c_grid_axis_shift") :=
  create_grid_in_place_strip exStale [] [] none "X" (fun e he => absurd he (List.not_mem_nil e))

/-- C4 counterexample: on a dataset whose dimension "X" carries
pre-existing "axis" and "c_grid_axis_shift" attributes, `_create_grid`
with an empty axis spec leaves the caller's dataset with both attributes
gone — the input dataset's per-dimension attribute mappings are NOT
unchanged after the call. -/
theorem create_grid_mutation_cex :
    getDim exStale "X" = some [("axis", AVal.s "T"), ("c_grid_axis_shift", AVal.s "0.5")] ∧
    getDim ((create_grid exStale [] [] none).1) "X" = some [] := by
  constructor
  · rfl
  · rfl

/-- C5 amended: for a dimension of the dataset that the axis spec names
exactly once, annotation sets its "axis" attribute to the axis label,
and sets its "c_grid_axis_shift" attribute to the string form of the
shift if and only if the shift is truthy — neither None nor numerically
zero; a shift of 0 (like one of None) produces no attribute. -/
theorem create_grid_shift_truthiness (d : DimCoords) (coords : AxisSpec) (p : List String)
    (fc : Option Unit) (axis n : String) (shift : Option ℚ)
    (es1 es2 : List (String × String × Option ℚ))
    (hsplit : specEntries coords = es1 ++ (axis, n, shift) :: es2)
    (h1 : ∀ e ∈ es1, e.2.1 ≠ n) (h2 : ∀ e ∈ es2, e.2.1 ≠ n)
    (hmem : dimMem d n = true) :
    ∃ a, getDim ((create_grid d coords p fc).1) n = some a ∧
      getAttr a "axis" = some (AVal.s axis) ∧
      getAttr a "c_grid_axis_shift" = truthyShiftAttr shift := by
  rw [create_grid_components]
  dsimp only
  rw [annotateAxes_entries, hsplit, List.foldl_append, List.foldl_cons]
  rw [foldl_entryStep_getDim_unmentioned es2 n _ h2]
  have hmem1 : dimMem (es1.foldl entryStep (stripDimAttrs d, ([] : List String))).1 n = true := by
    rw [dimMem_of_names _ d (by rw [foldl_entryStep_names]; exact stripDimAttrs_names d) n]
    exact hmem
  rw [show entryStep (es1.foldl entryStep (stripDimAttrs d, ([] : List String)))
        (axis, n, shift) =
      annotatePair (es1.foldl entryStep (stripDimAttrs d, ([] : List String))) axis (n, shift)
      from rfl]
  rw [annotatePair_getDim_self _ axis (n, shift) hmem1]
  rw [foldl_entryStep_getDim_unmentioned es1 n _ h1]
  rw [getDim_strip]
  rcases getDim_of_dimMem d n hmem with ⟨a0, ha0⟩
  rw [ha0]
  have hcgs0 : getAttr (popAttr (popAttr a0 "axis") "c_grid_axis_shift")
      "c_grid_axis_shift" = none := getAttr_popAttr_self _ _
  unfold truthyShiftAttr
  rcases shift with _ | q
  · exact ⟨_, rfl, getAttr_setAttr_self _ _ _,
      by rw [getAttr_setAttr_other _ _ _ _ (by decide : "c_grid_axis_shift" ≠ "axis")]
         exact hcgs0⟩
  · by_cases hq : q ≠ 0
    · refine ⟨_, rfl, ?_, ?_⟩
      · dsimp only
        rw [if_pos hq]
        rw [getAttr_setAttr_other _ _ _ _ (by decide : "axis" ≠ "c_grid_axis_shift")]
        exact getAttr_setAttr_self _ _ _
      · dsimp only
        rw [if_pos hq, if_pos hq]
        exact getAttr_setAttr_self _ _ _
    · refine ⟨_, rfl, ?_, ?_⟩
      · dsimp only
        rw [if_neg hq]
        exact getAttr_setAttr_self _ _ _
      · dsimp only
        rw [if_neg hq, if_neg hq]
        rw [getAttr_setAttr_other _ _ _ _ (by decide : "c_grid_axis_shift" ≠ "axis")]
        exact hcgs0

/-- C5 counterexample: with the axis spec assigning dimension "x" to axis
"X" with the numeric shift 0 — a shift that is not None — annotation
sets the "axis" attribute but does NOT set any "c_grid_axis_shift"
attribute, because the source guards the write with Python truthiness
("if shift:") rather than an is-not-None test. -/
theorem create_grid_zero_shift_cex :
    exSpecShift0 = [("X", [("x", some (0 : ℚ))])] ∧
    getDim ((create_grid exBareX exSpecShift0 [] none).1) "x" = some [("axis", AVal.s "X")] ∧
    getAttr [("axis", AVal.s "X")] "c_grid_axis_shift" = none := by
  refine ⟨rfl, ?_, rfl⟩
  decide

/-- C5 witness: the shift-truthiness theorem applied at the concrete
dataset with bare dimension "x" and the concrete spec with shift 0. -/
theorem create_grid_shift_truthiness_witness :
    ∃ a, getDim ((create_grid exBareX exSpecShift0 [] none).1) "x" = some a ∧
      getAttr a "axis" = some (AVal.s "X") ∧
      getAttr a "c_grid_axis_shift" = truthyShiftAttr (some 0) :=
  create_grid_shift_truthiness exBareX exSpecShift0 [] none "X" "x" (some 0) [] []
    rfl (fun e he => absurd he (List.not_mem_nil e)) (fun e he => absurd he (List.not_mem_nil e))
    (by decide)

/-- C2: the relabeling pipeline never reaches its dimension-rewrite loop —
for every input dataset, `_relabel_pop_dims` raises NameError in its
axis-synthesis step (the undefined name "np" on line 361), so no
variable ever has its dimension tuple replaced; the rewrite the claim
describes is the behavior of the dead loop only (see
`relabelVar_rewrites` and `relabelVar_no_grid_loc`). -/
theorem relabel_pop_dims_raises_nameError (ds : PDs) :
    relabel_pop_dims ds = Except.error PyErr.nameError := rfl

/-- C8: evaluated on a POP dataset, the axis-synthesis step raises
NameError ("np" is undefined; the module imports "numpy") before
creating any staggered coordinate axis — no four new axes are ever
added; and even with "np" bound, line 364 reassigns "XT" instead of
creating "YT", so only three new horizontal axes would result. -/
theorem add_pop_dims_raises_nameError :
    add_pop_dims_to_dataset exPopPlain = Except.error PyErr.nameError := rfl

/-- C9: on a concrete dataset none of whose variable names appears in the
registry, relabeling does not return the input dataset (or any dataset)
with dimension tuples intact — it raises NameError in the
axis-synthesis step; the untouched pass-through the claim describes
holds only for the dead rewrite loop (see `relabelVar_no_grid_loc`). -/
theorem relabel_pop_dims_unregistered_raises :
    (∀ p ∈ exPopForeign, grid_locs.find? (fun g => g.1 = p.1) = none) ∧
    relabel_pop_dims exPopForeign = Except.error PyErr.nameError :=
  ⟨by decide, rfl⟩

theorem relabelVar_no_grid_loc (v : PVar) (h : pGetAttr v.attrs "grid_loc" = none) :
    relabelVar v = .ok v := by
  unfold relabelVar
  rw [h]

theorem relabelVar_rewrites (v : PVar) (code : String) (sd : List String) (d0 : String)
    (rest : List String) (hc : pGetAttr v.attrs "grid_loc" = some code)
    (hd : dims_from_grid_loc code = .ok (some sd)) (hv : v.dims = d0 :: rest) :
    relabelVar v = .ok (PVar.mk (if d0 = "Nt" then "Nt" :: sd else sd) v.data v.attrs) := by
  unfold relabelVar
  rw [hc]
  dsimp only
  rw [hd, bindE_ok, hv]

end OspyUtils
